import Mathlib

/-!
Verification of the STARCOS SPK 2.3 card driver
(`src/libopensc/card-starcos.c`) against its natural-language
specification.

The driver is embedded shallowly: every embedded definition mirrors one C
function of the source file.  The external collaborators the driver calls
are passed in as parameters:

* the APDU transport is modelled by supplying, per call, the list of card
  responses (`CardResp`) consumed in transmission order — the transport
  itself is assumed to succeed (a short list behaves as a card answering
  `00 00`, which takes the same status-word failure paths);
* the parent ISO 7816 status-word translator is a parameter
  `iso : Nat → Nat → Int`;
* the PKCS#1 v1.5 DigestInfo encoder is a parameter
  `enc : Nat → List Nat → Except Int (List Nat)`.

Bytes and machine integers are `Nat` with explicit masking where the C
code masks; driver results are `Int` (`0` is success, negative values are
the normalized error codes).
-/

namespace Starcos

/-! ### Framework constants

Modelled from the spec: the numeric values of the framework constants
(`opensc.h`, `errors.h`) are not part of `src/`; the spec only fixes the
error taxonomy (§7), the path kinds, file types and flag sets (§3).  The
claims depend solely on these constants being pairwise distinct (and on
the algorithm flags being distinct bits), never on the exact numbers.
-/

/-- Modelled from the spec: success code of the framework. -/
def SC_SUCCESS : Int := 0

/-- Modelled from the spec: alias for success used by the SW translator. -/
def SC_NO_ERROR : Int := 0

/-- Modelled from the spec: normalized error taxonomy (§7), distinct codes. -/
def SC_ERROR_OUT_OF_MEMORY : Int := -1100

/-- Modelled from the spec: normalized error taxonomy (§7). -/
def SC_ERROR_INVALID_ARGUMENTS : Int := -1101

/-- Modelled from the spec: normalized error taxonomy (§7). -/
def SC_ERROR_INVALID_DATA : Int := -1102

/-- Modelled from the spec: normalized error taxonomy (§7). -/
def SC_ERROR_INTERNAL : Int := -1103

/-- Modelled from the spec: normalized error taxonomy (§7). -/
def SC_ERROR_NOT_SUPPORTED : Int := -1104

/-- Modelled from the spec: normalized error taxonomy (§7). -/
def SC_ERROR_NOT_ALLOWED : Int := -1105

/-- Modelled from the spec: normalized error taxonomy (§7). -/
def SC_ERROR_INCORRECT_PARAMETERS : Int := -1106

/-- Modelled from the spec: normalized error taxonomy (§7). -/
def SC_ERROR_FILE_ALREADY_EXISTS : Int := -1107

/-- Modelled from the spec: normalized error taxonomy (§7). -/
def SC_ERROR_FILE_NOT_FOUND : Int := -1108

/-- Modelled from the spec: normalized error taxonomy (§7). -/
def SC_ERROR_PIN_CODE_INCORRECT : Int := -1109

/-- Modelled from the spec: normalized error taxonomy (§7). -/
def SC_ERROR_CARD_CMD_FAILED : Int := -1110

/-- Modelled from the spec: path kind "raw FID" (§4.3). -/
def SC_PATH_TYPE_FILE_ID : Nat := 0

/-- Modelled from the spec: path kind "AID" (§4.3). -/
def SC_PATH_TYPE_DF_NAME : Nat := 1

/-- Modelled from the spec: path kind "full path" (§4.3). -/
def SC_PATH_TYPE_PATH : Nat := 2

/-- Modelled from the spec: file type tag for working EFs (§3). -/
def SC_FILE_TYPE_WORKING_EF : Nat := 0x01

/-- Modelled from the spec: file type tag for DFs (§3). -/
def SC_FILE_TYPE_DF : Nat := 0x04

/-- Modelled from the spec: EF structure tags (§3). -/
def SC_FILE_EF_UNKNOWN : Nat := 0

/-- Modelled from the spec: EF structure tags (§3). -/
def SC_FILE_EF_TRANSPARENT : Nat := 1

/-- Modelled from the spec: EF structure tags (§3). -/
def SC_FILE_EF_LINEAR_FIXED : Nat := 2

/-- Modelled from the spec: EF structure tags (§3). -/
def SC_FILE_EF_CYCLIC : Nat := 6

/-- Modelled from the spec: completion tag set on file descriptors (§3). -/
def SC_FILE_MAGIC : Nat := 0x14426950

/-- Modelled from the spec: ACL method bit "cardholder verification" (§3). -/
def SC_AC_NONE : Nat := 0x00000000

/-- Modelled from the spec: ACL method bit "cardholder verification" (§3). -/
def SC_AC_CHV : Nat := 0x00000001

/-- Modelled from the spec: ACL method bit "terminal authentication". -/
def SC_AC_TERM : Nat := 0x00000002

/-- Modelled from the spec: ACL method bit "secure messaging" (PRO, §3). -/
def SC_AC_PRO : Nat := 0x00000004

/-- Modelled from the spec: ACL method bit "key authentication". -/
def SC_AC_AUT : Nat := 0x00000008

/-- Modelled from the spec: ACL method value "prohibited" (all bits set). -/
def SC_AC_NEVER : Nat := 0xFFFFFFFF

/-- Modelled from the spec: sentinel "no key reference" (§4.4). -/
def SC_AC_KEY_REF_NONE : Nat := 0xFFFFFFFF

/-- Modelled from the spec: ACL operation indices (§3); distinct indices. -/
def SC_AC_OP_SELECT : Nat := 0

/-- Modelled from the spec: ACL operation indices (§3). -/
def SC_AC_OP_LOCK : Nat := 1

/-- Modelled from the spec: ACL operation indices (§3). -/
def SC_AC_OP_DELETE : Nat := 2

/-- Modelled from the spec: ACL operation indices (§3). -/
def SC_AC_OP_CREATE : Nat := 3

/-- Modelled from the spec: ACL operation indices (§3). -/
def SC_AC_OP_READ : Nat := 4

/-- Modelled from the spec: ACL operation indices (§3). -/
def SC_AC_OP_UPDATE : Nat := 5

/-- Modelled from the spec: ACL operation indices (§3). -/
def SC_AC_OP_WRITE : Nat := 6

/-- Modelled from the spec: ACL operation indices (§3). -/
def SC_AC_OP_ERASE : Nat := 7

/-- Modelled from the spec: security operation tags (§3); `0` means none. -/
def SC_SEC_OPERATION_DECIPHER : Nat := 0x0001

/-- Modelled from the spec: security operation tags (§3). -/
def SC_SEC_OPERATION_SIGN : Nat := 0x0002

/-- Modelled from the spec: security operation tags (§3). -/
def SC_SEC_OPERATION_AUTHENTICATE : Nat := 0x0003

/-- Modelled from the spec: security-environment flag bits (§3). -/
def SC_SEC_ENV_ALG_REF_PRESENT : Nat := 0x0001

/-- Modelled from the spec: security-environment flag bits (§3). -/
def SC_SEC_ENV_FILE_REF_PRESENT : Nat := 0x0002

/-- Modelled from the spec: security-environment flag bits (§3). -/
def SC_SEC_ENV_KEY_REF_PRESENT : Nat := 0x0004

/-- Modelled from the spec: security-environment flag bits (§3). -/
def SC_SEC_ENV_KEY_REF_ASYMMETRIC : Nat := 0x0008

/-- Modelled from the spec: security-environment flag bits (§3). -/
def SC_SEC_ENV_ALG_PRESENT : Nat := 0x0010

/-- Modelled from the spec: the RSA algorithm identifier. -/
def SC_ALGORITHM_RSA : Nat := 0

/-- Modelled from the spec: RSA algorithm flag bits (§3), distinct bits. -/
def SC_ALGORITHM_RSA_PAD_PKCS1 : Nat := 0x00000002

/-- Modelled from the spec: RSA algorithm flag bits (§3). -/
def SC_ALGORITHM_RSA_PAD_ISO9796 : Nat := 0x00000008

/-- Modelled from the spec: RSA algorithm flag bits (§3). -/
def SC_ALGORITHM_RSA_HASH_NONE : Nat := 0x00000010

/-- Modelled from the spec: RSA algorithm flag bits (§3). -/
def SC_ALGORITHM_RSA_HASH_SHA1 : Nat := 0x00000020

/-- Modelled from the spec: RSA algorithm flag bits (§3). -/
def SC_ALGORITHM_RSA_HASH_MD5 : Nat := 0x00000040

/-- Modelled from the spec: RSA algorithm flag bits (§3). -/
def SC_ALGORITHM_RSA_HASH_MD5_SHA1 : Nat := 0x00000080

/-- Modelled from the spec: RSA algorithm flag bits (§3). -/
def SC_ALGORITHM_RSA_HASH_RIPEMD160 : Nat := 0x00000100

/-- Modelled from the spec: mask of all RSA hash flag bits. -/
def SC_ALGORITHM_RSA_HASHES : Nat := 0x000001F0

/-- Modelled from the spec: maximal APDU buffer size of the framework. -/
def SC_MAX_APDU_BUFFER_SIZE : Nat := 258

/-- `#define STARCOS_AC_ALWAYS 0x9f` (source line 519). -/
def STARCOS_AC_ALWAYS : Nat := 0x9f

/-- `#define STARCOS_AC_NEVER 0x5f` (source line 520). -/
def STARCOS_AC_NEVER : Nat := 0x5f

/-- `#define STARCOS_WKEY_CSIZE 124` (source line 885). -/
def STARCOS_WKEY_CSIZE : Nat := 124

/-! ### Transport model -/

/-- A card response to one transmitted APDU: the two status bytes and the
response body (`apdu.resp` of length `apdu.resplen`). -/
structure CardResp where
  sw1 : Nat
  sw2 : Nat
  data : List Nat
deriving DecidableEq, Repr

/-- Response consumed for the `i`-th transmission of a call.  A missing
entry behaves as a card answering status word `00 00` with no body. -/
def getResp (resps : List CardResp) (i : Nat) : CardResp :=
  resps.getD i ⟨0, 0, []⟩

/-- One encoded APDU as the driver hands it to the transport. -/
structure Apdu where
  cla : Nat
  ins : Nat
  p1 : Nat
  p2 : Nat
  data : List Nat
deriving DecidableEq, Repr

/-! ### Status-word translation (`starcos_check_sw`, source lines 43–59
and 1244–1271) -/

/-- The 14-entry error table `starcos_errors` (source lines 43–59). -/
def starcos_errors : List (Nat × Int) :=
  [ (0x6600, SC_ERROR_INCORRECT_PARAMETERS),
    (0x66F0, SC_ERROR_INCORRECT_PARAMETERS),
    (0x69F0, SC_ERROR_NOT_ALLOWED),
    (0x6A89, SC_ERROR_FILE_ALREADY_EXISTS),
    (0x6A8A, SC_ERROR_FILE_ALREADY_EXISTS),
    (0x6F01, SC_ERROR_CARD_CMD_FAILED),
    (0x6F02, SC_ERROR_CARD_CMD_FAILED),
    (0x6F03, SC_ERROR_CARD_CMD_FAILED),
    (0x6F05, SC_ERROR_CARD_CMD_FAILED),
    (0x6F07, SC_ERROR_FILE_NOT_FOUND),
    (0x6F08, SC_ERROR_CARD_CMD_FAILED),
    (0x6F0A, SC_ERROR_INCORRECT_PARAMETERS),
    (0x6F0B, SC_ERROR_INCORRECT_PARAMETERS),
    (0x6F81, SC_ERROR_CARD_CMD_FAILED) ]

/-- `starcos_check_sw` (source lines 1244–1271).  `iso` is the parent ISO
7816 translator `iso_ops->check_sw`, an external collaborator. -/
def starcos_check_sw (iso : Nat → Nat → Int) (sw1 sw2 : Nat) : Int :=
  if sw1 = 0x90 then SC_NO_ERROR
  else if sw1 = 0x63 ∧ sw2 &&& 0xFFFFFFF0 = 0xc0 then SC_ERROR_PIN_CODE_INCORRECT
  else
    match starcos_errors.find? (fun e => e.1 = (sw1 <<< 8) ||| sw2) with
    | some e => e.2
    | none => iso sw1 sw2

/-! ### Serial number (`starcos_get_serialnr`, source lines 1273–1304) -/

/-- `starcos_get_serialnr`, observed as
`(result, cached serial afterwards, serial handed to the caller)`.
`cardSerial` is `card->serialnr` on entry (empty until first fetch);
`resp` is the card's answer to GET CARD DATA (consumed only on a cache
miss). -/
def starcos_get_serialnr (cardSerial : List Nat) (resp : CardResp) :
    Int × List Nat × Option (List Nat) :=
  if cardSerial.length ≠ 0 then (SC_SUCCESS, cardSerial, some cardSerial)
  else if ¬(resp.sw1 = 0x90 ∧ resp.sw2 = 0x00) then
    (SC_ERROR_INTERNAL, cardSerial, none)
  else (SC_SUCCESS, resp.data, some resp.data)

/-! ### Erase (`starcos_erase_card`, source lines 861–883) -/

/-- Validity flag plus current-path record of the per-session cache
(`card->cache_valid`, `card->cache.current_path`). -/
structure PathCache where
  valid : Bool
  ptype : Nat
  value : List Nat
deriving DecidableEq, Repr

/-- `starcos_erase_card` (source lines 861–883): emits ERASE `80 E4 00 00
02 3F 00`; invalidates the cache before inspecting the status word; a
`6985` answer (no MF) is normalized to success. -/
def starcos_erase_card (iso : Nat → Nat → Int) (cache : PathCache)
    (resp : CardResp) : Int × PathCache :=
  let cache' : PathCache := { cache with valid := false }
  if resp.sw1 = 0x69 ∧ resp.sw2 = 0x85 then (SC_SUCCESS, cache')
  else (starcos_check_sw iso resp.sw1 resp.sw2, cache')

/-! ### Security environment and signer (`starcos_set_security_env`,
source lines 1026–1150; `starcos_compute_signature`, 1152–1242) -/

/-- The driver's private extension state `starcos_ex_data`
(source lines 62–66). -/
structure ExData where
  sec_ops : Nat
  fix_digestInfo : Nat
deriving DecidableEq, Repr

/-- The security environment handed to `set_security_env` (§3); the key
reference bytes are the list `key_ref` (its length is `key_ref_len`). -/
structure SecurityEnv where
  operation : Nat
  flags : Nat
  algorithm : Nat
  algorithm_flags : Nat
  algorithm_ref : Nat
  key_ref : List Nat
deriving DecidableEq, Repr

/-- The key-reference part of the MSE body (source lines 1040–1048):
present only when `SC_SEC_ENV_KEY_REF_PRESENT`. -/
def starcos_key_ref_part (env : SecurityEnv) : List Nat :=
  if env.flags &&& SC_SEC_ENV_KEY_REF_PRESENT ≠ 0 then
    (if env.flags &&& SC_SEC_ENV_KEY_REF_ASYMMETRIC ≠ 0 then [0x83] else [0x84])
      ++ [env.key_ref.length] ++ env.key_ref
  else []

/-- The `try_authenticate` tail of `starcos_set_security_env` (source
lines 1127–1149): reached with `operation == SC_SEC_OPERATION_AUTHENTICATE`;
`idx` is the index of the next unconsumed card response and `apdus` the
APDUs already transmitted in this call. -/
def starcos_try_authenticate (iso : Nat → Nat → Int) (ex : ExData)
    (env : SecurityEnv) (resps : List CardResp) (idx : Nat)
    (apdus : List Apdu) : Int × ExData × List Apdu :=
  if env.algorithm_flags &&& SC_ALGORITHM_RSA_PAD_PKCS1 ≠ 0 then
    let body := starcos_key_ref_part env ++ [0x80, 0x01, 0x01]
    let r := getResp resps idx
    let apdus' := apdus ++ [⟨0x00, 0x22, 0x41, 0xa4, body⟩]
    if ¬(r.sw1 = 0x90 ∧ r.sw2 = 0x00) then
      (starcos_check_sw iso r.sw1 r.sw2, ex, apdus')
    else
      (SC_SUCCESS,
       { fix_digestInfo := env.algorithm_flags,
         sec_ops := SC_SEC_OPERATION_AUTHENTICATE }, apdus')
  else (SC_ERROR_INVALID_ARGUMENTS, ex, apdus)

/-- Outcome of the algorithm-attribute selection inside the COMPUTE
SIGNATURE attempt (source lines 1073–1105): `ok extra` proceeds with MSE
body `key_ref_part ++ extra`; `error none` is the `goto try_authenticate`
fall-through; `error (some e)` returns `e` at once. -/
def starcos_sign_alg_attr (env : SecurityEnv) : Except (Option Int) (List Nat) :=
  if env.flags &&& SC_SEC_ENV_ALG_REF_PRESENT ≠ 0 then
    .ok [0x80, 0x01, env.algorithm_ref &&& 0xFF]
  else if env.flags &&& SC_SEC_ENV_ALG_PRESENT ≠ 0 ∧
          env.algorithm = SC_ALGORITHM_RSA then
    if env.algorithm_flags &&& SC_ALGORITHM_RSA_PAD_PKCS1 ≠ 0 then
      if env.algorithm_flags &&& SC_ALGORITHM_RSA_HASH_SHA1 ≠ 0 then
        .ok [0x80, 0x01, 0x12]
      else if env.algorithm_flags &&& SC_ALGORITHM_RSA_HASH_RIPEMD160 ≠ 0 then
        .ok [0x80, 0x01, 0x22]
      else if env.algorithm_flags &&& SC_ALGORITHM_RSA_HASH_MD5 ≠ 0 then
        .ok [0x80, 0x01, 0x32]
      else .error none
    else if env.algorithm_flags &&& SC_ALGORITHM_RSA_PAD_ISO9796 ≠ 0 then
      if env.algorithm_flags &&& SC_ALGORITHM_RSA_HASH_SHA1 ≠ 0 then
        .ok [0x80, 0x01, 0x11]
      else if env.algorithm_flags &&& SC_ALGORITHM_RSA_HASH_RIPEMD160 ≠ 0 then
        .ok [0x80, 0x01, 0x21]
      else .error (some SC_ERROR_INVALID_ARGUMENTS)
    else .error (some SC_ERROR_INVALID_ARGUMENTS)
  else .ok []

/-- `starcos_set_security_env` (source lines 1026–1150), observed as
`(result, extension state afterwards, APDUs transmitted)`. -/
def starcos_set_security_env (iso : Nat → Nat → Int) (ex : ExData)
    (env : SecurityEnv) (resps : List CardResp) :
    Int × ExData × List Apdu :=
  let keyPart := starcos_key_ref_part env
  if env.operation = SC_SEC_OPERATION_DECIPHER then
    if env.algorithm_flags &&& SC_ALGORITHM_RSA_PAD_PKCS1 ≠ 0 then
      let body := keyPart ++ [0x80, 0x01, 0x02]
      let r := getResp resps 0
      let apdus := [Apdu.mk 0x00 0x22 0x81 0xb8 body]
      if ¬(r.sw1 = 0x90 ∧ r.sw2 = 0x00) then
        (starcos_check_sw iso r.sw1 r.sw2, ex, apdus)
      else (SC_SUCCESS, ex, apdus)
    else (SC_ERROR_INVALID_ARGUMENTS, ex, [])
  else if env.operation = SC_SEC_OPERATION_SIGN ∧
          (env.algorithm_flags &&& SC_ALGORITHM_RSA_PAD_PKCS1 ≠ 0 ∨
           env.algorithm_flags &&& SC_ALGORITHM_RSA_PAD_ISO9796 ≠ 0) then
    match starcos_sign_alg_attr env with
    | .error (some e) => (e, ex, [])
    | .error none =>
      -- `goto try_authenticate` before the B6 MSE is ever transmitted
      starcos_try_authenticate iso ex env resps 0 []
    | .ok extra =>
      let body := keyPart ++ extra
      let r := getResp resps 0
      let ap := Apdu.mk 0x00 0x22 0x41 0xb6 body
      if r.sw1 = 0x90 ∧ r.sw2 = 0x00 then
        (SC_SUCCESS, { fix_digestInfo := 0, sec_ops := SC_SEC_OPERATION_SIGN },
         [ap])
      else starcos_try_authenticate iso ex env resps 1 [ap]
  else if env.operation = SC_SEC_OPERATION_AUTHENTICATE then
    starcos_try_authenticate iso ex env resps 0 []
  else (SC_ERROR_INVALID_ARGUMENTS, ex, [])

/-- The input handed to INTERNAL AUTHENTICATE (source lines 1205–1219):
with `fix_digestInfo` nonzero, the PKCS#1 encoder `enc` is called on the
stored hash flags (substituting HASH NONE when no hash bit is set);
otherwise the data passes through verbatim. -/
def starcos_auth_input (ex : ExData) (data : List Nat)
    (enc : Nat → List Nat → Except Int (List Nat)) : Except Int (List Nat) :=
  if ex.fix_digestInfo ≠ 0 then
    let flags := ex.fix_digestInfo &&& SC_ALGORITHM_RSA_HASHES
    let flags := if flags = 0 then SC_ALGORITHM_RSA_HASH_NONE else flags
    enc flags data
  else .ok data

/-- `starcos_compute_signature` (source lines 1152–1242), observed as
`(result, extension state afterwards, bytes copied to the caller)`.  On
success the result is the copied length (non-negative); `resps` supplies
the card's answer to each transmitted APDU in order (the SIGN branch
transmits PSO Hash then PSO Compute Signature; the AUTHENTICATE branch
transmits one INTERNAL AUTHENTICATE). -/
def starcos_compute_signature (iso : Nat → Nat → Int) (ex : ExData)
    (data : List Nat) (outlen : Nat) (resps : List CardResp)
    (enc : Nat → List Nat → Except Int (List Nat)) :
    Int × ExData × List Nat :=
  if data.length > SC_MAX_APDU_BUFFER_SIZE then
    (SC_ERROR_INVALID_ARGUMENTS, ex, [])
  else if ex.sec_ops = SC_SEC_OPERATION_SIGN then
    let r1 := getResp resps 0
    if ¬(r1.sw1 = 0x90 ∧ r1.sw2 = 0x00) then
      (starcos_check_sw iso r1.sw1 r1.sw2, ex, [])
    else
      let r2 := getResp resps 1
      if r2.sw1 = 0x90 ∧ r2.sw2 = 0x00 then
        let len := min r2.data.length outlen
        ((len : Int), ex, r2.data.take len)
      else
        -- fall through to the state-clearing exit
        (starcos_check_sw iso r2.sw1 r2.sw2, ⟨0, 0⟩, [])
  else if ex.sec_ops = SC_SEC_OPERATION_AUTHENTICATE then
    match starcos_auth_input ex data enc with
    | .error r => (r, ex, [])
    | .ok _ =>
      let r1 := getResp resps 0
      if r1.sw1 = 0x90 ∧ r1.sw2 = 0x00 then
        let len := min r1.data.length outlen
        ((len : Int), ex, r1.data.take len)
      else
        (starcos_check_sw iso r1.sw1 r1.sw2, ⟨0, 0⟩, [])
  else (SC_ERROR_INVALID_ARGUMENTS, ex, [])

/-- When `starcos_compute_signature` reaches its `clear old state` exit:
exactly when the dispatched branch's final APDU was transmitted and came
back with a status word other than `90 00`. -/
def starcos_clears_state (ex : ExData) (data : List Nat)
    (resps : List CardResp)
    (enc : Nat → List Nat → Except Int (List Nat)) : Prop :=
  data.length ≤ SC_MAX_APDU_BUFFER_SIZE ∧
  ((ex.sec_ops = SC_SEC_OPERATION_SIGN ∧
    ((getResp resps 0).sw1 = 0x90 ∧ (getResp resps 0).sw2 = 0x00) ∧
    ¬((getResp resps 1).sw1 = 0x90 ∧ (getResp resps 1).sw2 = 0x00)) ∨
   (ex.sec_ops = SC_SEC_OPERATION_AUTHENTICATE ∧
    (∃ b, starcos_auth_input ex data enc = .ok b) ∧
    ¬((getResp resps 0).sw1 = 0x90 ∧ (getResp resps 0).sw2 = 0x00)))

instance (ex : ExData) (data : List Nat) (resps : List CardResp)
    (enc : Nat → List Nat → Except Int (List Nat)) :
    Decidable (starcos_clears_state ex data resps enc) := by
  unfold starcos_clears_state
  have : Decidable (∃ b, starcos_auth_input ex data enc = .ok b) := by
    match h : starcos_auth_input ex data enc with
    | .ok b => exact isTrue ⟨b, rfl⟩
    | .error e => exact isFalse (by simp)
  exact inferInstance

/-! ### ACL translation (`process_acl_entry`, source lines 519–542;
`starcos_process_acl`, 554–677) -/

/-- One ACL entry (`sc_acl_entry_t`): a method bit set and a key
reference. -/
structure AclEntry where
  method : Nat
  key_ref : Nat
deriving DecidableEq, Repr

/-- The abstract file object `sc_file_t` as far as this driver reads it.
`acl op` is the first ACL entry for operation `op` (what
`sc_file_get_acl_entry` returns), `none` when the list is unset. -/
structure ScFile where
  id : Nat
  type : Nat
  ef_structure : Nat
  size : Nat
  name : List Nat
  namelen : Nat
  record_count : Nat
  record_length : Nat
  pathv : List Nat
  magic : Nat
  acl : Nat → Option AclEntry

/-- A fresh zeroed file object (`sc_file_new`). -/
def sc_file_new : ScFile :=
  { id := 0, type := 0, ef_structure := 0, size := 0, name := [],
    namelen := 0, record_count := 0, record_length := 0, pathv := [],
    magic := 0, acl := fun _ => none }

/-- `STARCOS_PINID2STATE` (source line 521). -/
def STARCOS_PINID2STATE (a : Nat) : Nat :=
  if a &&& 0x0f = 0x01 then a &&& 0x0f else 0x0f - ((0x0f &&& a) >>> 1)

/-- `process_acl_entry` (source lines 523–542). -/
def process_acl_entry (f : ScFile) (method : Nat) (in_def : Nat) : Nat :=
  let d := in_def &&& 0xff
  match f.acl method with
  | none => d
  | some entry =>
    if entry.method &&& SC_AC_CHV ≠ 0 then
      let key_ref := entry.key_ref
      if key_ref = SC_AC_KEY_REF_NONE then d
      else if key_ref &&& 0x0f = 1 then
        (if key_ref &&& 0x80 ≠ 0 then 0x10 else 0x00) ||| 0x01
      else
        (if key_ref &&& 0x80 ≠ 0 then 0x10 else 0x00) ||| STARCOS_PINID2STATE key_ref
    else if entry.method &&& SC_AC_NEVER ≠ 0 then STARCOS_AC_NEVER
    else d

/-- The SM byte of the CREATE header for MF and DF (source lines 579–582
and 615–620): `0x03` (combined mode) when the CREATE ACL entry exists and
demands secure messaging (`SC_AC_PRO`), else `0x00`. -/
def starcos_create_sm_byte (f : ScFile) : Nat :=
  match f.acl SC_AC_OP_CREATE with
  | some e => if e.method &&& SC_AC_PRO ≠ 0 then 0x03 else 0x00
  | none => 0x00

/-- The EF SM-byte loop (source line 646):
`for (tmp = 0, r = 0; tmp != 0 && r < 4; r++) if (acl[r] PRO) tmp = 0x03;`
— embedded exactly as written, entry condition included.  `fuel` bounds
the iteration count structurally; since `r` increases by one per
iteration and the guard requires `r < 4`, fuel `4` is exact. -/
def starcos_ef_sm_while (f : ScFile) (tmp r : Nat) : Nat → Nat
  | 0 => tmp
  | fuel + 1 =>
    if tmp ≠ 0 ∧ r < 4 then
      let tmp' :=
        match f.acl r with
        | some e => if e.method &&& SC_AC_PRO ≠ 0 then 0x03 else tmp
        | none => tmp
      starcos_ef_sm_while f tmp' (r + 1) fuel
    else tmp

/-- The EF SM byte: the loop entered with `tmp = 0, r = 0` (the guard
`r < 4` makes `4 - r` iterations an exact bound). -/
def starcos_ef_sm_loop (f : ScFile) (tmp : Nat) (r : Nat) : Nat :=
  starcos_ef_sm_while f tmp r (4 - r)

/-- The tagged creation record `sc_starcos_create_data` filled by
`starcos_process_acl`. -/
inductive StarcosCreateData where
  | mf (header : List Nat)
  | df (header : List Nat) (size : List Nat)
  | ef (header : List Nat)
deriving DecidableEq, Repr

/-- `starcos_process_acl` (source lines 554–677).  The MF branch builds
the 19-byte MF header, the DF branch the 25-byte DF header plus the DF
size bytes, the EF branch the 16-byte EF header; any other file type is
rejected. -/
def starcos_process_acl (file : ScFile) : Except Int StarcosCreateData :=
  if file.type = SC_FILE_TYPE_DF ∧ file.id = 0x3f00 then
    let ac := process_acl_entry file SC_AC_OP_CREATE STARCOS_AC_ALWAYS
    let tmp := starcos_create_sm_byte file
    .ok (.mf ([0x01, 0x02, 0x03, 0x04, 0x05, 0x06, 0x07, 0x08] ++
      [(file.size >>> 8) &&& 0xff, file.size &&& 0xff,
       (file.size >>> 10) &&& 0xff, (file.size >>> 2) &&& 0xff,
       ac, ac, ac, ac, tmp, tmp, tmp]))
  else if file.type = SC_FILE_TYPE_DF then
    let ac := process_acl_entry file SC_AC_OP_CREATE STARCOS_AC_ALWAYS
    let tmp := starcos_create_sm_byte file
    let aidPart :=
      if file.namelen ≠ 0 then
        let k := file.namelen &&& 0xff
        [file.namelen &&& 0xff] ++ (file.name.take k ++ List.replicate (16 - k) 0)
      else
        [2, (file.id >>> 8) &&& 0xff, file.id &&& 0xff] ++ List.replicate 14 0
    .ok (.df ([(file.id >>> 8) &&& 0xff, file.id &&& 0xff] ++ aidPart ++
        [(file.size >>> 10) &&& 0xff, (file.size >>> 2) &&& 0xff, ac, ac, tmp, tmp])
      [(file.size >>> 8) &&& 0xff, file.size &&& 0xff])
  else if file.type = SC_FILE_TYPE_WORKING_EF then
    let tmp := starcos_ef_sm_loop file 0 0
    let headerPre :=
      [(file.id >>> 8) &&& 0xff, file.id &&& 0xff,
       process_acl_entry file SC_AC_OP_READ STARCOS_AC_ALWAYS,
       process_acl_entry file SC_AC_OP_WRITE STARCOS_AC_ALWAYS,
       process_acl_entry file SC_AC_OP_ERASE STARCOS_AC_ALWAYS,
       STARCOS_AC_ALWAYS, STARCOS_AC_ALWAYS, STARCOS_AC_ALWAYS, STARCOS_AC_ALWAYS,
       0x00, 0x00, tmp, 0x00]
    -- the structure tail switches on `file->type` (as in the source)
    if file.type = SC_FILE_EF_TRANSPARENT then
      .ok (.ef (headerPre ++ [0x81, (file.size >>> 8) &&& 0xff, file.size &&& 0xff]))
    else if file.type = SC_FILE_EF_LINEAR_FIXED then
      .ok (.ef (headerPre ++ [0x82, file.record_count &&& 0xff, file.record_length &&& 0xff]))
    else if file.type = SC_FILE_EF_CYCLIC then
      .ok (.ef (headerPre ++ [0x84, file.record_count &&& 0xff, file.record_length &&& 0xff]))
    else .error SC_ERROR_INVALID_ARGUMENTS
  else .error SC_ERROR_INVALID_ARGUMENTS

/-! ### Key importer (`starcos_write_key`, source lines 897–954) -/

/-- The chunked key-transfer loop of `starcos_write_key` (source lines
926–952), observed as `(result, chunk APDUs transmitted)`.  The first
argument is structural fuel: every iteration consumes at least one key
byte, so any fuel above the key length is exact. -/
def starcos_write_key_go (iso : Nat → Nat → Int) (kid mode : Nat) :
    Nat → List Nat → Nat → List CardResp → Int × List Apdu
  | 0, _, _, _ => (SC_SUCCESS, [])
  | fuel + 1, key, offset, resps =>
    if key = [] then (SC_SUCCESS, [])
    else
      let clen := min key.length STARCOS_WKEY_CSIZE
      let ap := Apdu.mk 0x80 0xf4 mode 0x00
        ([0xc2, 3 + clen, kid, (offset >>> 8) &&& 0xff, offset &&& 0xff]
         ++ key.take clen)
      if ¬((getResp resps 0).sw1 = 0x90 ∧ (getResp resps 0).sw2 = 0x00) then
        (starcos_check_sw iso (getResp resps 0).sw1 (getResp resps 0).sw2, [ap])
      else
        let t := starcos_write_key_go iso kid mode fuel (key.drop clen)
          (offset + clen) (resps.drop 1)
        (t.1, ap :: t.2)

/-- The key-transfer loop entered with exact fuel. -/
def starcos_write_key_loop (iso : Nat → Nat → Int) (kid mode : Nat)
    (key : List Nat) (offset : Nat) (resps : List CardResp) :
    Int × List Apdu :=
  starcos_write_key_go iso kid mode (key.length + 1) key offset resps

/-- `sc_starcos_wkey_data`: mode, key id, 12-byte key header, optional
key material. -/
structure WKeyData where
  mode : Nat
  kid : Nat
  key_header : List Nat
  key : Option (List Nat)

/-- `starcos_write_key` (source lines 897–954): with `mode == 0` first
installs the key header `{C1 0C <12 bytes>}`; then streams the key
material in chunks of up to 124 bytes. -/
def starcos_write_key (iso : Nat → Nat → Int) (d : WKeyData)
    (resps : List CardResp) : Int × List Apdu :=
  if d.mode = 0 then
    let hap := Apdu.mk 0x80 0xf4 d.mode 0x00 ([0xc1, 0x0c] ++ d.key_header.take 12)
    let r := getResp resps 0
    if ¬(r.sw1 = 0x90 ∧ r.sw2 = 0x00) then
      (starcos_check_sw iso r.sw1 r.sw2, [hap])
    else
      match d.key with
      | none => (SC_SUCCESS, [hap])
      | some k =>
        let t := starcos_write_key_loop iso d.kid d.mode k 0 (resps.drop 1)
        (t.1, hap :: t.2)
  else
    match d.key with
    | none => (SC_SUCCESS, [])
    | some k => starcos_write_key_loop iso d.kid d.mode k 0 resps

/-- Spec-side (claim C6, in the claim's words): chunk `i` carries
`min (key_len − 124·i) 124` bytes at offset `124·i` (the number of key
bytes already sent), with body `{C2, 3+clen, KID, offset.hi, offset.lo,
data}`; there are `ceil(key_len / 124)` chunks.  `base` generalizes the
starting offset for the induction. -/
def spec_wkey_chunks_from (kid mode base : Nat) (k : List Nat) : List Apdu :=
  (List.range ((k.length + 123) / 124)).map (fun i =>
    Apdu.mk 0x80 0xf4 mode 0x00
      ([0xc2, 3 + min (k.length - 124 * i) 124, kid,
        ((base + 124 * i) >>> 8) &&& 0xff, (base + 124 * i) &&& 0xff]
       ++ ((k.drop (124 * i)).take 124)))

/-! ### Key generator (`starcos_gen_key`, source lines 965–1011) -/

/-- `starcos_gen_key` (source lines 965–1011), observed as
`(result, modulus handed back)`.  `r1` answers GENERATE, `r2` answers
READ PUBLIC KEY; the modulus is the `key_length/8` bytes starting at
response offset 18, copied in reverse order
(`for (i = len; i != 0; i--) *p++ = q[i-1]` with `q = &rbuf[18]`). -/
def starcos_gen_key (iso : Nat → Nat → Int) (key_length key_id : Nat)
    (r1 r2 : CardResp) : Int × Option (List Nat) :=
  if ¬(r1.sw1 = 0x90 ∧ r1.sw2 = 0x00) then
    (starcos_check_sw iso r1.sw1 r1.sw2, none)
  else if ¬(r2.sw1 = 0x90 ∧ r2.sw2 = 0x00) then
    (starcos_check_sw iso r2.sw1 r2.sw2, none)
  else
    let len := key_length >>> 3
    let modulus := (List.range len).map (fun j => r2.data.getD (18 + (len - 1 - j)) 0)
    (SC_SUCCESS, some modulus)

/-! ### File selection (`starcos_select_aid`, source lines 218–264;
`starcos_select_fid`, 266–363; `starcos_select_file`, 365–517) -/

/-- Outcome of one `starcos_select_fid` call, abstracting the card's
answers to the SELECT (and possible re-SELECT and READ BINARY probe)
inside it: the result the call returns and whether the DF/EF heuristic
concluded the target is a DF.  A call with no outcome left in the oracle
behaves as an aborted transport (`SC_ERROR_CARD_CMD_FAILED`). -/
structure FidOutcome where
  result : Int
  isDF : Bool
deriving DecidableEq, Repr

/-- The cache effect of `starcos_select_fid` (source lines 320–332): on
success with a DF, the cached path becomes `3F 00` for the MF and
`3F 00 hi lo` otherwise; on failure or for an EF the cache is kept. -/
def starcos_select_fid_model (cache : PathCache) (hi lo : Nat)
    (oc : FidOutcome) : Int × PathCache :=
  if oc.result ≠ SC_SUCCESS then (oc.result, cache)
  else if oc.isDF then
    (SC_SUCCESS,
     { cache with
       ptype := SC_PATH_TYPE_PATH
       value := if hi = 0x3f ∧ lo = 0x00 then [0x3f, 0x00]
         else [0x3f, 0x00, hi &&& 0xff, lo &&& 0xff] })
  else (SC_SUCCESS, cache)

/-- Path normalization (source lines 435–444): prepend `3F 00` when the
path does not already start with it. -/
def starcos_norm_path (p : List Nat) : List Nat :=
  if p.getD 0 0 = 0x3f ∧ p.getD 1 0 = 0x00 then p else 0x3f :: 0x00 :: p

/-- The `bMatch` loop body (source lines 452–457):
`for (i=0; i < cache len; i+=2) if (pair i matches) bMatch += 2;` —
counts matching FID pairs at every position (no break on mismatch).
The last argument is structural fuel; `i` advances by 2 per iteration,
so any fuel above the cache length is exact. -/
def starcos_bMatch_go (cval path : List Nat) : Nat → Nat → Nat
  | _, 0 => 0
  | i, fuel + 1 =>
    if i < cval.length then
      (if cval.getD i 0 = path.getD i 0 ∧
          cval.getD (i + 1) 0 = path.getD (i + 1) 0 then 2 else 0)
      + starcos_bMatch_go cval path (i + 2) fuel
    else 0

/-- The `bMatch` loop entered at `i` with exact fuel. -/
def starcos_bMatch_loop (cval path : List Nat) (i : Nat) : Nat :=
  starcos_bMatch_go cval path i (cval.length + 1)

/-- `bMatch` (source lines 446–457): `-1` unless the cache is valid, of
type PATH, and its length is between 2 and the normalized path length. -/
def starcos_bMatch (cache : PathCache) (path : List Nat) : Int :=
  if cache.valid = true ∧ cache.ptype = SC_PATH_TYPE_PATH ∧
     2 ≤ cache.value.length ∧ cache.value.length ≤ path.length then
    (starcos_bMatch_loop cache.value path 0 : Nat)
  else -1

/-- The FID pairs of a path, in order. -/
def pairsOf : List Nat → List (Nat × Nat)
  | a :: b :: rest => (a, b) :: pairsOf rest
  | _ => []

/-- The cold-path loop of `starcos_select_file` (source lines 506–511):
select every intermediate FID in turn, stopping at the first failure.
Returns the result, cache, FID selections performed, and the unconsumed
outcomes. -/
def starcos_cold_loop (cache : PathCache) (pairs : List (Nat × Nat))
    (ocs : List FidOutcome) :
    Int × PathCache × List (Nat × Nat) × List FidOutcome :=
  match pairs with
  | [] => (SC_SUCCESS, cache, [], ocs)
  | (hi, lo) :: ps =>
    match ocs with
    | [] => (SC_ERROR_CARD_CMD_FAILED, cache, [(hi, lo)], [])
    | oc :: rest =>
      let s := starcos_select_fid_model cache hi lo oc
      if s.1 ≠ SC_SUCCESS then (s.1, s.2, [(hi, lo)], rest)
      else
        let t := starcos_cold_loop s.2 ps rest
        (t.1, t.2.1, (hi, lo) :: t.2.2.1, t.2.2.2)

/-- The `SC_PATH_TYPE_PATH` branch of `starcos_select_file` (source lines
418–514), observed as `(result, cache afterwards, FID selections
performed in order)`.  Each listed pair is one `starcos_select_fid`
call (one to three APDUs on the wire); `ocs` supplies the outcome of
each call in order.  The first argument is structural fuel: the
recursive descent consumes at least one outcome per level, so any fuel
above the outcome count is exact. -/
def starcos_select_path_go :
    Nat → PathCache → List Nat → List FidOutcome →
    Int × PathCache × List (Nat × Nat)
  | 0, cache, _, _ => (SC_ERROR_CARD_CMD_FAILED, cache, [])
  | fuel + 1, cache, pathIn, ocs =>
    if pathIn.length % 2 ≠ 0 ∨ pathIn.length > 6 ∨ pathIn.length = 0 then
      (SC_ERROR_INVALID_ARGUMENTS, cache, [])
    else if pathIn.length = 6 ∧
        ¬(pathIn.getD 0 0 = 0x3f ∧ pathIn.getD 1 0 = 0x00) then
      (SC_ERROR_INVALID_ARGUMENTS, cache, [])
    else
      let path := starcos_norm_path pathIn
      let bM := starcos_bMatch cache path
      if cache.valid = true ∧ 0 ≤ bM then
        let b := bM.toNat
        if path.length - b = 2 then
          match ocs with
          | [] => (SC_ERROR_CARD_CMD_FAILED, cache,
              [(path.getD b 0, path.getD (b + 1) 0)])
          | oc :: _ =>
            let s := starcos_select_fid_model cache (path.getD b 0)
              (path.getD (b + 1) 0) oc
            (s.1, s.2, [(path.getD b 0, path.getD (b + 1) 0)])
        else if 2 < path.length - b then
          match ocs with
          | [] => (SC_ERROR_CARD_CMD_FAILED, cache,
              [(path.getD b 0, path.getD (b + 1) 0)])
          | oc :: rest =>
            let s := starcos_select_fid_model cache (path.getD b 0)
              (path.getD (b + 1) 0) oc
            if s.1 ≠ SC_SUCCESS then
              (s.1, s.2, [(path.getD b 0, path.getD (b + 1) 0)])
            else
              let t := starcos_select_path_go fuel s.2 (path.drop (b + 2)) rest
              (t.1, t.2.1, (path.getD b 0, path.getD (b + 1) 0) :: t.2.2)
        else (SC_SUCCESS, cache, [])
      else
        let pairs := pairsOf path
        let c := starcos_cold_loop cache pairs.dropLast ocs
        if c.1 ≠ SC_SUCCESS then (c.1, c.2.1, c.2.2.1)
        else
          match pairs.getLast? with
          | none => (SC_SUCCESS, c.2.1, c.2.2.1)
          | some (hi, lo) =>
            match c.2.2.2 with
            | [] => (SC_ERROR_CARD_CMD_FAILED, c.2.1, c.2.2.1 ++ [(hi, lo)])
            | oc :: _ =>
              let s := starcos_select_fid_model c.2.1 hi lo oc
              (s.1, s.2, c.2.2.1 ++ [(hi, lo)])

/-- The PATH selection entered with exact fuel (one outcome is consumed
before every recursive descent, so `ocs.length + 1` never runs out). -/
def starcos_select_file_path (cache : PathCache) (pathIn : List Nat)
    (ocs : List FidOutcome) : Int × PathCache × List (Nat × Nat) :=
  starcos_select_path_go (ocs.length + 1) cache pathIn ocs

/-- Spec-side (claim C3, in the claim's words): the number of leading
bytes of the normalized path that agree with the cache, counted in steps
of 2. -/
def spec_leading_agree : List Nat → List Nat → Nat
  | a :: b :: cs, x :: y :: ps =>
    if a = x ∧ b = y then 2 + spec_leading_agree cs ps else 0
  | _, _ => 0

/-- Spec-side (what the `bMatch` loop actually computes): twice the
number of FID pair positions — leading or not — at which the two lists
agree. -/
def spec_pair_agree : List Nat → List Nat → Nat
  | a :: b :: cs, x :: y :: ps =>
    (if a = x ∧ b = y then 2 else 0) + spec_pair_agree cs ps
  | _, _ => 0

/-- `starcos_select_aid` (source lines 218–264), observed as `(result,
cache afterwards, descriptor written to `*file_out`, APDUs
transmitted)`.  Success is SW `90 00` or `61 xx`; on success the cache
becomes `(DF_NAME, aid)` and, when a descriptor is wanted, a DF
descriptor carrying the AID is synthesized. -/
def starcos_select_aid (iso : Nat → Nat → Int) (cache : PathCache)
    (aid : List Nat) (wantFile : Bool) (resp : CardResp) :
    Int × PathCache × Option ScFile × Nat :=
  if ¬((resp.sw1 = 0x90 ∧ resp.sw2 = 0x00) ∨ resp.sw1 = 0x61) then
    (starcos_check_sw iso resp.sw1 resp.sw2, cache, none, 1)
  else
    let cache' := { cache with ptype := SC_PATH_TYPE_DF_NAME, value := aid }
    let fo :=
      if wantFile then
        some { sc_file_new with
          type := SC_FILE_TYPE_DF, ef_structure := SC_FILE_EF_UNKNOWN,
          pathv := [], size := 0, name := aid, namelen := aid.length,
          id := 0x0000, magic := SC_FILE_MAGIC }
      else none
    (SC_SUCCESS, cache', fo, 1)

/-- The `SC_PATH_TYPE_DF_NAME` branch of `starcos_select_file` (source
lines 403–417): a valid cached AID equal to the request is a cache hit —
return success with no APDU and without touching `*file_out`; otherwise
delegate to `starcos_select_aid`. -/
def starcos_select_file_df_name (iso : Nat → Nat → Int) (cache : PathCache)
    (aid : List Nat) (wantFile : Bool) (resp : CardResp) :
    Int × PathCache × Option ScFile × Nat :=
  if cache.valid = true ∧ cache.ptype = SC_PATH_TYPE_DF_NAME ∧
     cache.value = aid then
    (SC_SUCCESS, cache, none, 0)
  else starcos_select_aid iso cache aid wantFile resp

/-! ### Concrete instantiations used by witnesses and counterexamples -/

/-- A stand-in for the parent ISO translator in closed statements; the
claims settled below never depend on its values. -/
def iso_stub : Nat → Nat → Int := fun _ _ => SC_ERROR_NOT_SUPPORTED

/-- A stand-in for the PKCS#1 encoder in closed statements. -/
def enc_stub : Nat → List Nat → Except Int (List Nat) := fun _ d => .ok d

/-- A working EF whose READ ACL demands secure messaging (`SC_AC_PRO`);
the concrete input exhibiting the dead EF SM-byte loop. -/
def ef_pro_file : ScFile :=
  { sc_file_new with
    id := 0x5011
    type := SC_FILE_TYPE_WORKING_EF
    size := 0x20
    acl := fun op =>
      if op = SC_AC_OP_READ then some ⟨SC_AC_PRO, SC_AC_KEY_REF_NONE⟩
      else none }

/-!
## Theorems

One theorem per claim (with witnesses and counterexamples where
required), preceded by shared helper lemmas.
-/

/-- Helper: a bit inside a mask can be read off the masked value. -/
theorem and_submask (flags v m s : Nat) (hms : m &&& s = s)
    (h : flags &&& m = v) : flags &&& s = v &&& s := by
  conv_lhs => rw [← hms]
  rw [← Nat.and_assoc, h]

/-- Helper: the reversed slice extraction of `starcos_gen_key`. -/
theorem map_range_rev_getD (d : List Nat) (s len : Nat)
    (h : s + len ≤ d.length) :
    (List.range len).map (fun j => d.getD (s + (len - 1 - j)) 0) =
      ((d.drop s).take len).reverse := by
  apply List.ext_getElem
  · simp only [List.length_map, List.length_range, List.length_reverse,
      List.length_take, List.length_drop]
    omega
  · intro i h1 h2
    simp only [List.length_map, List.length_range] at h1
    simp only [List.getElem_map, List.getElem_range, List.getElem_reverse,
      List.getElem_take, List.getElem_drop]
    rw [List.getD_eq_getElem?_getD, List.getElem?_eq_getElem (by omega),
      Option.getD_some]
    congr 1
    simp only [List.length_take, List.length_drop]
    omega

/-- C7: after `erase_card`'s transport succeeds, `cache_valid` is false
whatever the status word, and `69 85` (no MF present) is returned as
success. -/
theorem C7_erase_card (iso : Nat → Nat → Int) (cache : PathCache)
    (resp : CardResp) :
    (starcos_erase_card iso cache resp).2.valid = false ∧
    (resp.sw1 = 0x69 → resp.sw2 = 0x85 →
      (starcos_erase_card iso cache resp).1 = SC_SUCCESS) := by
  constructor
  · unfold starcos_erase_card
    split <;> rfl
  · intro h1 h2
    unfold starcos_erase_card
    rw [if_pos ⟨h1, h2⟩]

/-- Witness for C7 at a concrete call. -/
theorem C7_witness :
    (starcos_erase_card iso_stub ⟨true, SC_PATH_TYPE_PATH, [0x3f, 0x00]⟩
      ⟨0x69, 0x85, []⟩).2.valid = false ∧
    (starcos_erase_card iso_stub ⟨true, SC_PATH_TYPE_PATH, [0x3f, 0x00]⟩
      ⟨0x69, 0x85, []⟩).1 = SC_SUCCESS :=
  ⟨(C7_erase_card iso_stub ⟨true, SC_PATH_TYPE_PATH, [0x3f, 0x00]⟩
      ⟨0x69, 0x85, []⟩).1,
   (C7_erase_card iso_stub ⟨true, SC_PATH_TYPE_PATH, [0x3f, 0x00]⟩
      ⟨0x69, 0x85, []⟩).2 rfl rfl⟩

/-- C9: on a successful `gen_key`, the returned modulus is the
byte-reverse of the READ PUBLIC KEY response bytes at offsets
`18 .. 18 + L/8 − 1`. -/
theorem C9_gen_key_modulus (iso : Nat → Nat → Int) (key_length key_id : Nat)
    (r1 r2 : CardResp)
    (h1 : r1.sw1 = 0x90 ∧ r1.sw2 = 0x00) (h2 : r2.sw1 = 0x90 ∧ r2.sw2 = 0x00)
    (hlen : 18 + (key_length >>> 3) ≤ r2.data.length) :
    starcos_gen_key iso key_length key_id r1 r2 =
      (SC_SUCCESS, some (((r2.data.drop 18).take (key_length >>> 3)).reverse)) := by
  unfold starcos_gen_key
  rw [if_neg (by simp [h1.1, h1.2]), if_neg (by simp [h2.1, h2.2])]
  simp only [map_range_rev_getD r2.data 18 (key_length >>> 3) hlen]

/-- Witness for C9: a 32-bit key read from a 30-byte response. -/
theorem C9_witness :
    starcos_gen_key iso_stub 32 1 ⟨0x90, 0x00, []⟩ ⟨0x90, 0x00, List.range 30⟩ =
      (SC_SUCCESS, some [21, 20, 19, 18]) := by
  rw [C9_gen_key_modulus iso_stub 32 1 ⟨0x90, 0x00, []⟩
    ⟨0x90, 0x00, List.range 30⟩ ⟨rfl, rfl⟩ ⟨rfl, rfl⟩ (by decide)]
  decide

/-- C10: selecting by `DF_NAME` on a valid cached AID equal to the
request returns success, emits zero APDUs and leaves `*file_out`
unwritten, while the cold path synthesizes and writes a DF
descriptor. -/
theorem C10_aid_cache_hit_no_file (iso : Nat → Nat → Int)
    (cache c2 : PathCache) (aid : List Nat) (resp : CardResp)
    (hv : cache.valid = true) (ht : cache.ptype = SC_PATH_TYPE_DF_NAME)
    (he : cache.value = aid)
    (hcold : ¬(c2.valid = true ∧ c2.ptype = SC_PATH_TYPE_DF_NAME ∧
               c2.value = aid))
    (hok : resp.sw1 = 0x90 ∧ resp.sw2 = 0x00) :
    starcos_select_file_df_name iso cache aid true resp =
      (SC_SUCCESS, cache, none, 0) ∧
    ((starcos_select_file_df_name iso c2 aid true resp).2.2.1).isSome = true := by
  constructor
  · unfold starcos_select_file_df_name
    rw [if_pos ⟨hv, ht, he⟩]
  · unfold starcos_select_file_df_name
    rw [if_neg hcold]
    unfold starcos_select_aid
    rw [if_neg (by simp [hok.1, hok.2])]
    rfl

/-- Witness for C10 at a concrete AID. -/
theorem C10_witness :
    starcos_select_file_df_name iso_stub
      ⟨true, SC_PATH_TYPE_DF_NAME, [0xA0, 0x00, 0x01]⟩ [0xA0, 0x00, 0x01]
      true ⟨0x90, 0x00, []⟩ =
      (SC_SUCCESS, ⟨true, SC_PATH_TYPE_DF_NAME, [0xA0, 0x00, 0x01]⟩, none, 0) ∧
    ((starcos_select_file_df_name iso_stub
      ⟨false, SC_PATH_TYPE_DF_NAME, [0xA0, 0x00, 0x01]⟩ [0xA0, 0x00, 0x01]
      true ⟨0x90, 0x00, []⟩).2.2.1).isSome = true :=
  C10_aid_cache_hit_no_file iso_stub
    ⟨true, SC_PATH_TYPE_DF_NAME, [0xA0, 0x00, 0x01]⟩
    ⟨false, SC_PATH_TYPE_DF_NAME, [0xA0, 0x00, 0x01]⟩
    [0xA0, 0x00, 0x01] ⟨0x90, 0x00, []⟩ rfl rfl rfl (by simp) ⟨rfl, rfl⟩

/-- C4 (counterexample): at status word `63 C0`, `starcos_get_serialnr`
returns `SC_ERROR_INTERNAL`, not the `PIN_CODE_INCORRECT` the status-word
translation produces — so not every driver operation returns the
translated error. -/
theorem C4_counterexample :
    (starcos_get_serialnr [] ⟨0x63, 0xC0, [1, 2]⟩).1 = SC_ERROR_INTERNAL ∧
    starcos_check_sw iso_stub 0x63 0xC0 = SC_ERROR_PIN_CODE_INCORRECT ∧
    SC_ERROR_INTERNAL ≠ SC_ERROR_PIN_CODE_INCORRECT := by decide

/-- C4 (amended): `starcos_check_sw` translates exactly as claimed —
`sw1 = 90` is success, `63 Cx` is PIN incorrect, the 14-entry table maps
its listed status words, anything else is delegated to the parent ISO
translator — and the operations return that translation, except
`starcos_get_serialnr`, which returns `SC_ERROR_INTERNAL` for every
status word other than `90 00`. -/
theorem C4_check_sw_translation (iso : Nat → Nat → Int) (sw1 sw2 : Nat)
    (serialResp : CardResp) :
    (sw1 = 0x90 → starcos_check_sw iso sw1 sw2 = SC_NO_ERROR) ∧
    (sw1 = 0x63 → sw2 &&& 0xFFFFFFF0 = 0xc0 →
      starcos_check_sw iso sw1 sw2 = SC_ERROR_PIN_CODE_INCORRECT) ∧
    starcos_errors.length = 14 ∧
    (∀ v, sw1 ≠ 0x90 → ¬(sw1 = 0x63 ∧ sw2 &&& 0xFFFFFFF0 = 0xc0) →
      starcos_errors.find? (fun e => e.1 = (sw1 <<< 8) ||| sw2) = some v →
      starcos_check_sw iso sw1 sw2 = v.2) ∧
    (sw1 ≠ 0x90 → ¬(sw1 = 0x63 ∧ sw2 &&& 0xFFFFFFF0 = 0xc0) →
      starcos_errors.find? (fun e => e.1 = (sw1 <<< 8) ||| sw2) = none →
      starcos_check_sw iso sw1 sw2 = iso sw1 sw2) ∧
    (¬(serialResp.sw1 = 0x90 ∧ serialResp.sw2 = 0x00) →
      (starcos_get_serialnr [] serialResp).1 = SC_ERROR_INTERNAL) := by
  refine ⟨?_, ?_, rfl, ?_, ?_, ?_⟩
  · intro h
    unfold starcos_check_sw
    rw [if_pos h]
  · intro h1 h2
    unfold starcos_check_sw
    rw [if_neg (by rw [h1]; decide), if_pos ⟨h1, h2⟩]
  · intro v h1 h2 hfind
    unfold starcos_check_sw
    rw [if_neg h1, if_neg h2, hfind]
  · intro h1 h2 hfind
    unfold starcos_check_sw
    rw [if_neg h1, if_neg h2, hfind]
  · intro h
    unfold starcos_get_serialnr
    rw [if_neg (by simp), if_pos h]

/-- Witness for C4 at concrete status words (one per translation rule,
plus `get_serialnr` at a non-`9000` answer). -/
theorem C4_witness :
    starcos_check_sw iso_stub 0x90 0x23 = SC_NO_ERROR ∧
    starcos_check_sw iso_stub 0x63 0xC5 = SC_ERROR_PIN_CODE_INCORRECT ∧
    starcos_check_sw iso_stub 0x6F 0x08 = SC_ERROR_CARD_CMD_FAILED ∧
    starcos_check_sw iso_stub 0x6A 0x82 = iso_stub 0x6A 0x82 ∧
    (starcos_get_serialnr [] ⟨0x6A, 0x82, [7]⟩).1 = SC_ERROR_INTERNAL :=
  ⟨(C4_check_sw_translation iso_stub 0x90 0x23 ⟨0, 0, []⟩).1 rfl,
   (C4_check_sw_translation iso_stub 0x63 0xC5 ⟨0, 0, []⟩).2.1 rfl (by decide),
   (C4_check_sw_translation iso_stub 0x6F 0x08 ⟨0, 0, []⟩).2.2.2.1
     (0x6F08, SC_ERROR_CARD_CMD_FAILED) (by decide) (by decide) (by decide),
   (C4_check_sw_translation iso_stub 0x6A 0x82 ⟨0, 0, []⟩).2.2.2.2.1
     (by decide) (by decide) (by decide),
   (C4_check_sw_translation iso_stub 0 0 ⟨0x6A, 0x82, [7]⟩).2.2.2.2.2
     (by decide)⟩

/-- C2 (code behavior at the failing input): for a working EF whose READ
ACL requires secure messaging, the encoded 16-byte header carries SM byte
`0x00` (position 11), not `0x03` — the SM loop's entry condition
`tmp != 0` is never satisfied. -/
theorem C2_ef_sm_byte_always_zero :
    ef_pro_file.acl SC_AC_OP_READ = some ⟨SC_AC_PRO, SC_AC_KEY_REF_NONE⟩ ∧
    SC_AC_PRO &&& SC_AC_PRO ≠ 0 ∧
    starcos_process_acl ef_pro_file =
      .ok (.ef [0x50, 0x11, 0x5f, 0x9f, 0x9f, 0x9f, 0x9f, 0x9f, 0x9f,
                0x00, 0x00, 0x00, 0x00, 0x81, 0x00, 0x20]) ∧
    (0x00 : Nat) ≠ 0x03 :=
  ⟨rfl, by decide, rfl, by decide⟩

/-- C1 (counterexample): a successful signature (card answers `90 00` to
PSO Hash and PSO Compute Signature) returns with `sec_ops` still set to
`SIGN` — the extension state is not cleared on every outcome. -/
theorem C1_counterexample :
    ((starcos_compute_signature iso_stub ⟨SC_SEC_OPERATION_SIGN, 0⟩ [0xAA] 4
        [⟨0x90, 0x00, []⟩, ⟨0x90, 0x00, [1, 2, 3, 4]⟩] enc_stub).2.1).sec_ops =
      SC_SEC_OPERATION_SIGN ∧
    SC_SEC_OPERATION_SIGN ≠ 0 := by decide

/-- C1 (amended): `compute_signature` clears `sec_ops` and
`fix_digestInfo` exactly when the dispatched branch's final APDU was
transmitted and answered with a status word other than `90 00`; on a
successful signature, on the invalid-state rejection, on an oversized
input, on a hash-step status failure and on a DigestInfo-encoding
failure the extension state is returned unchanged. -/
theorem C1_clear_on_final_sw_failure (iso : Nat → Nat → Int) (ex : ExData)
    (data : List Nat) (outlen : Nat) (resps : List CardResp)
    (enc : Nat → List Nat → Except Int (List Nat)) :
    (starcos_compute_signature iso ex data outlen resps enc).2.1 =
      if starcos_clears_state ex data resps enc then ExData.mk 0 0 else ex := by
  simp only [starcos_compute_signature]
  by_cases hlen : data.length > SC_MAX_APDU_BUFFER_SIZE
  · rw [if_pos hlen, if_neg (fun hc => absurd hc.1 (by omega))]
  · rw [if_neg hlen]
    by_cases hsig : ex.sec_ops = SC_SEC_OPERATION_SIGN
    · rw [if_pos hsig]
      by_cases h0 : (getResp resps 0).sw1 = 0x90 ∧ (getResp resps 0).sw2 = 0x00
      · rw [if_neg (not_not_intro h0)]
        by_cases h1 : (getResp resps 1).sw1 = 0x90 ∧ (getResp resps 1).sw2 = 0x00
        · rw [if_pos h1, if_neg ?ncl]
          case ncl =>
            rintro ⟨-, h | h⟩
            · exact h.2.2 h1
            · exact absurd (hsig.symm.trans h.1) (by decide)
        · rw [if_neg h1,
            if_pos ⟨Nat.le_of_not_lt hlen, Or.inl ⟨hsig, h0, h1⟩⟩]
      · rw [if_pos h0, if_neg ?ncl2]
        case ncl2 =>
          rintro ⟨-, h | h⟩
          · exact h0 h.2.1
          · exact absurd (hsig.symm.trans h.1) (by decide)
    · rw [if_neg hsig]
      by_cases hauth : ex.sec_ops = SC_SEC_OPERATION_AUTHENTICATE
      · rw [if_pos hauth]
        cases hA : starcos_auth_input ex data enc with
        | error r =>
          simp only [hA]
          rw [if_neg ?ncl3]
          case ncl3 =>
            rintro ⟨-, h | h⟩
            · exact hsig h.1
            · obtain ⟨b, hb⟩ := h.2.1
              rw [hA] at hb
              exact Except.noConfusion hb
        | ok b =>
          simp only [hA]
          by_cases h0 : (getResp resps 0).sw1 = 0x90 ∧ (getResp resps 0).sw2 = 0x00
          · rw [if_pos h0, if_neg ?ncl4]
            case ncl4 =>
              rintro ⟨-, h | h⟩
              · exact hsig h.1
              · exact h.2.2 h0
          · rw [if_neg h0,
              if_pos ⟨Nat.le_of_not_lt hlen, Or.inr ⟨hauth, ⟨b, hA⟩, h0⟩⟩]
      · rw [if_neg hauth, if_neg ?ncl5]
        case ncl5 =>
          rintro ⟨-, h | h⟩
          · exact hsig h.1
          · exact hauth h.1

/-- C5: a SIGN environment with PKCS#1 padding, no explicit algorithm
reference, RSA present, and hash NONE or MD5+SHA1 falls through to the
INTERNAL AUTHENTICATE environment without transmitting the B6 MSE; when
the card accepts the A4 MSE the call succeeds with
`sec_ops = AUTHENTICATE` and `fix_digestInfo = env.algorithm_flags`. -/
theorem C5_sign_fallback_authenticate (iso : Nat → Nat → Int) (ex : ExData)
    (env : SecurityEnv) (resps : List CardResp)
    (hop : env.operation = SC_SEC_OPERATION_SIGN)
    (hpk : env.algorithm_flags &&& SC_ALGORITHM_RSA_PAD_PKCS1 ≠ 0)
    (hnoref : env.flags &&& SC_SEC_ENV_ALG_REF_PRESENT = 0)
    (halg : env.flags &&& SC_SEC_ENV_ALG_PRESENT ≠ 0)
    (hrsa : env.algorithm = SC_ALGORITHM_RSA)
    (hhash : env.algorithm_flags &&& SC_ALGORITHM_RSA_HASHES =
               SC_ALGORITHM_RSA_HASH_NONE ∨
             env.algorithm_flags &&& SC_ALGORITHM_RSA_HASHES =
               SC_ALGORITHM_RSA_HASH_MD5_SHA1)
    (hcard : (getResp resps 0).sw1 = 0x90 ∧ (getResp resps 0).sw2 = 0x00) :
    starcos_set_security_env iso ex env resps =
      (SC_SUCCESS, ⟨SC_SEC_OPERATION_AUTHENTICATE, env.algorithm_flags⟩,
       [⟨0x00, 0x22, 0x41, 0xa4,
         starcos_key_ref_part env ++ [0x80, 0x01, 0x01]⟩]) := by
  have hsha : env.algorithm_flags &&& SC_ALGORITHM_RSA_HASH_SHA1 = 0 := by
    rcases hhash with h | h <;>
      exact (and_submask env.algorithm_flags _ _ _ (by decide) h).trans (by decide)
  have hrip : env.algorithm_flags &&& SC_ALGORITHM_RSA_HASH_RIPEMD160 = 0 := by
    rcases hhash with h | h <;>
      exact (and_submask env.algorithm_flags _ _ _ (by decide) h).trans (by decide)
  have hmd5 : env.algorithm_flags &&& SC_ALGORITHM_RSA_HASH_MD5 = 0 := by
    rcases hhash with h | h <;>
      exact (and_submask env.algorithm_flags _ _ _ (by decide) h).trans (by decide)
  have hattr : starcos_sign_alg_attr env = .error none := by
    unfold starcos_sign_alg_attr
    rw [if_neg (by simp [hnoref]), if_pos ⟨halg, hrsa⟩, if_pos hpk,
      if_neg (by simp [hsha]), if_neg (by simp [hrip]), if_neg (by simp [hmd5])]
  simp only [starcos_set_security_env]
  rw [if_neg (by rw [hop]; decide), if_pos ⟨hop, Or.inl hpk⟩]
  simp only [hattr]
  simp only [starcos_try_authenticate]
  rw [if_pos hpk, if_neg (not_not_intro hcard)]
  simp

/-- Witness for C5: SIGN, PKCS#1, RSA, hash NONE, card accepts. -/
theorem C5_witness :
    starcos_set_security_env iso_stub ⟨0, 0⟩
      ⟨SC_SEC_OPERATION_SIGN, SC_SEC_ENV_ALG_PRESENT, SC_ALGORITHM_RSA,
       0x12, 0, []⟩ [⟨0x90, 0x00, []⟩] =
      (SC_SUCCESS, ⟨SC_SEC_OPERATION_AUTHENTICATE, 0x12⟩,
       [⟨0x00, 0x22, 0x41, 0xa4, [0x80, 0x01, 0x01]⟩]) := by
  rw [C5_sign_fallback_authenticate iso_stub ⟨0, 0⟩
    ⟨SC_SEC_OPERATION_SIGN, SC_SEC_ENV_ALG_PRESENT, SC_ALGORITHM_RSA,
     0x12, 0, []⟩ [⟨0x90, 0x00, []⟩] rfl (by decide) (by decide) (by decide)
    rfl (Or.inl (by decide)) ⟨rfl, rfl⟩]
  decide

/-- Helper: the cold-path loop emits no selection only when it
succeeds. -/
theorem cold_loop_nil_steps (cache : PathCache) (ps : List (Nat × Nat))
    (ocs : List FidOutcome) :
    (starcos_cold_loop cache ps ocs).2.2.1 = [] →
    (starcos_cold_loop cache ps ocs).1 = SC_SUCCESS := by
  match ps, ocs with
  | [], _ => intro _; rfl
  | (hi, lo) :: ps', [] => intro h; simp [starcos_cold_loop] at h
  | (hi, lo) :: ps', oc :: rest =>
    simp only [starcos_cold_loop]
    split
    · intro h; simp at h
    · intro h; simp at h

/-- Helper: on a well-formed PATH input, `starcos_select_file_path`
returns with no selection performed only when it succeeds (each branch
either selects at least one FID or is a cache hit). -/
theorem select_path_nil_steps (cache : PathCache) (pathIn : List Nat)
    (ocs : List FidOutcome)
    (h1 : ¬(pathIn.length % 2 ≠ 0 ∨ pathIn.length > 6 ∨ pathIn.length = 0))
    (h2 : ¬(pathIn.length = 6 ∧
            ¬(pathIn.getD 0 0 = 0x3f ∧ pathIn.getD 1 0 = 0x00))) :
    (starcos_select_file_path cache pathIn ocs).2.2 = [] →
    (starcos_select_file_path cache pathIn ocs).1 = SC_SUCCESS := by
  simp only [starcos_select_file_path, starcos_select_path_go]
  rw [if_neg h1, if_neg h2]
  split
  · split
    · split <;> (intro h; simp at h)
    · split
      · split
        · intro h; simp at h
        · split
          · intro h; simp at h
          · intro h; simp at h
      · intro _; rfl
  · split
    · rename_i hcold
      intro h
      rw [cold_loop_nil_steps _ _ _ h] at hcold
      exact absurd rfl hcold
    · split
      · intro _; rfl
      · split
        · intro h; simp at h
        · intro h; simp at h

/-- C8: a PATH-type selection fails with `INVALID_ARGUMENTS` while
performing no selection (no APDU) exactly when the input path has odd
length, length 0, length above 6, or length 6 without leading
`3F 00`. -/
theorem C8_select_path_rejects (cache : PathCache) (pathIn : List Nat)
    (ocs : List FidOutcome) :
    ((starcos_select_file_path cache pathIn ocs).1 = SC_ERROR_INVALID_ARGUMENTS ∧
     (starcos_select_file_path cache pathIn ocs).2.2 = []) ↔
    (pathIn.length % 2 ≠ 0 ∨ pathIn.length = 0 ∨ 6 < pathIn.length ∨
     (pathIn.length = 6 ∧
      ¬(pathIn.getD 0 0 = 0x3f ∧ pathIn.getD 1 0 = 0x00))) := by
  by_cases h1 : pathIn.length % 2 ≠ 0 ∨ pathIn.length > 6 ∨ pathIn.length = 0
  · have hL : starcos_select_file_path cache pathIn ocs =
        (SC_ERROR_INVALID_ARGUMENTS, cache, []) := by
      simp only [starcos_select_file_path, starcos_select_path_go]
      rw [if_pos h1]
    rw [hL]
    constructor
    · intro _
      rcases h1 with h | h | h
      · exact Or.inl h
      · exact Or.inr (Or.inr (Or.inl h))
      · exact Or.inr (Or.inl h)
    · intro _
      exact ⟨rfl, rfl⟩
  · by_cases h2 : pathIn.length = 6 ∧
        ¬(pathIn.getD 0 0 = 0x3f ∧ pathIn.getD 1 0 = 0x00)
    · have hL : starcos_select_file_path cache pathIn ocs =
          (SC_ERROR_INVALID_ARGUMENTS, cache, []) := by
        simp only [starcos_select_file_path, starcos_select_path_go]
        rw [if_neg h1, if_pos h2]
      rw [hL]
      constructor
      · intro _
        exact Or.inr (Or.inr (Or.inr h2))
      · intro _
        exact ⟨rfl, rfl⟩
    · have hns := select_path_nil_steps cache pathIn ocs h1 h2
      constructor
      · rintro ⟨ha, hb⟩
        rw [hns hb] at ha
        exact absurd ha (by decide)
      · intro h
        exfalso
        rcases h with h | h | h | h
        · exact h1 (Or.inl h)
        · exact h1 (Or.inr (Or.inr h))
        · exact h1 (Or.inr (Or.inl h))
        · exact h2 h

set_option maxRecDepth 4000 in
/-- Helper: peeling the first chunk off the claimed chunk list. -/
theorem spec_wkey_chunks_from_cons (kid mode base : Nat) (k : List Nat)
    (hk : k ≠ []) :
    spec_wkey_chunks_from kid mode base k =
      Apdu.mk 0x80 0xf4 mode 0x00
        ([0xc2, 3 + min k.length 124, kid, (base >>> 8) &&& 0xff,
          base &&& 0xff] ++ k.take (min k.length 124))
      :: spec_wkey_chunks_from kid mode (base + min k.length 124)
           (k.drop (min k.length 124)) := by
  have hk1 : 1 ≤ k.length := List.length_pos.mpr hk
  rcases le_or_lt k.length 124 with hle | hgt
  · have hm : min k.length 124 = k.length := by omega
    rw [hm]
    unfold spec_wkey_chunks_from
    have h1 : (k.length + 123) / 124 = 1 := by omega
    have h0 : ((k.drop k.length).length + 123) / 124 = 0 := by
      simp only [List.length_drop]
      omega
    rw [h1, h0]
    simp only [List.range_succ, List.range_zero, List.nil_append,
      List.map_cons, List.map_nil, Nat.mul_zero, Nat.sub_zero, Nat.add_zero,
      List.drop_zero]
    rw [Nat.min_eq_left hle, List.take_of_length_le hle,
      List.take_of_length_le (le_refl k.length)]
  · have hm : min k.length 124 = 124 := by omega
    rw [hm]
    unfold spec_wkey_chunks_from
    have hsplit : (k.length + 123) / 124 =
        ((k.drop 124).length + 123) / 124 + 1 := by
      simp only [List.length_drop]
      omega
    rw [hsplit, List.range_succ_eq_map, List.map_cons, List.map_map]
    congr 1
    · simp only [Nat.mul_zero, Nat.sub_zero, Nat.add_zero, List.drop_zero,
        Nat.min_eq_right (le_of_lt hgt)]
    · apply List.map_congr_left
      intro i _
      simp only [Function.comp_apply]
      have e1 : k.length - 124 * (i + 1) = (k.drop 124).length - 124 * i := by
        simp only [List.length_drop]
        omega
      have e2 : base + 124 * (i + 1) = base + 124 + 124 * i := by omega
      have e3 : k.drop (124 * (i + 1)) = (k.drop 124).drop (124 * i) := by
        rw [List.drop_drop]
        congr 1
        omega
      rw [e1, e2, e3]

/-- Helper: with every card response `90 00` and enough responses, the
key-transfer loop succeeds and transmits exactly the claimed chunk
sequence. -/
theorem wkey_go_eq_spec (iso : Nat → Nat → Int) (kid mode : Nat)
    (fuel : Nat) :
    ∀ (k : List Nat) (base : Nat) (resps : List CardResp),
      k.length < fuel →
      (∀ r ∈ resps, r.sw1 = 0x90 ∧ r.sw2 = 0x00) →
      (k.length + 123) / 124 ≤ resps.length →
      starcos_write_key_go iso kid mode fuel k base resps =
        (SC_SUCCESS, spec_wkey_chunks_from kid mode base k) := by
  induction fuel with
  | zero =>
    intro k base resps hf _ _
    exact absurd hf (Nat.not_lt_zero _)
  | succ n ih =>
    intro k base resps hf hall hlen
    by_cases hk : k = []
    · subst hk
      simp [starcos_write_key_go, spec_wkey_chunks_from]
    · have hk1 : 1 ≤ k.length := List.length_pos.mpr hk
      have hc1 : 1 ≤ (k.length + 123) / 124 := by omega
      obtain ⟨r0, rest, rfl⟩ : ∃ r0 rest, resps = r0 :: rest := by
        cases resps with
        | nil => simp at hlen; omega
        | cons a b => exact ⟨a, b, rfl⟩
      have hok := hall r0 (List.mem_cons_self r0 rest)
      have hC : STARCOS_WKEY_CSIZE = 124 := rfl
      simp only [starcos_write_key_go]
      rw [if_neg hk, if_neg (not_not_intro ⟨hok.1, hok.2⟩)]
      simp only [List.drop_succ_cons, List.drop_zero]
      rw [ih (k.drop (min k.length STARCOS_WKEY_CSIZE))
        (base + min k.length STARCOS_WKEY_CSIZE) rest
        (by simp only [List.length_drop, hC]; omega)
        (fun r hr => hall r (List.mem_cons_of_mem r0 hr))
        (by simp only [List.length_drop, hC]
            simp only [List.length_cons] at hlen
            omega)]
      rw [spec_wkey_chunks_from_cons kid mode base k hk]
      rw [hC]

/-- C6: a `write_key` call with a non-empty key and all-`9000` responses
transmits exactly `ceil(key_len / 124)` data chunks, each chunk body
`{C2, 3+clen, KID, offset.hi, offset.lo, data}` with `clen =
min(key_len − 124·i, 124)` and offset `124·i` (the bytes already sent);
the header APDU (mode 0) precedes them. -/
theorem C6_write_key_chunks (iso : Nat → Nat → Int) (d : WKeyData)
    (k : List Nat) (resps : List CardResp)
    (hkey : d.key = some k) (hne : k ≠ [])
    (hall : ∀ r ∈ resps, r.sw1 = 0x90 ∧ r.sw2 = 0x00)
    (hlen : 1 + (k.length + 123) / 124 ≤ resps.length) :
    starcos_write_key iso d resps =
      (SC_SUCCESS,
       (if d.mode = 0 then
          [Apdu.mk 0x80 0xf4 d.mode 0x00 ([0xc1, 0x0c] ++ d.key_header.take 12)]
        else []) ++ spec_wkey_chunks_from d.kid d.mode 0 k) ∧
    (spec_wkey_chunks_from d.kid d.mode 0 k).length = (k.length + 123) / 124 := by
  constructor
  · unfold starcos_write_key
    by_cases hm : d.mode = 0
    · simp only [if_pos hm]
      obtain ⟨r0, rest, rfl⟩ : ∃ r0 rest, resps = r0 :: rest := by
        cases resps with
        | nil => simp at hlen
        | cons a b => exact ⟨a, b, rfl⟩
      have hok := hall r0 (List.mem_cons_self r0 rest)
      rw [if_neg (not_not_intro ⟨hok.1, hok.2⟩)]
      simp only [hkey]
      unfold starcos_write_key_loop
      rw [wkey_go_eq_spec iso d.kid d.mode (k.length + 1) k 0
        (List.drop 1 (r0 :: rest))
        (Nat.lt_succ_self _)
        (fun r hr => hall r (List.mem_cons_of_mem r0 (by simpa using hr)))
        (by simp only [List.drop_one, List.tail_cons]
            simp only [List.length_cons] at hlen
            omega)]
      simp
    · simp only [if_neg hm]
      simp only [hkey]
      unfold starcos_write_key_loop
      rw [wkey_go_eq_spec iso d.kid d.mode (k.length + 1) k 0 resps
        (Nat.lt_succ_self _) hall (by omega)]
      simp
  · simp [spec_wkey_chunks_from]

set_option maxRecDepth 4000 in
/-- Witness for C6: a 250-byte key in mode 0 — one header APDU and three
chunks (124, 124, 2 bytes). -/
theorem C6_witness :
    starcos_write_key iso_stub
      ⟨0, 0x85, List.replicate 12 7, some (List.range 250)⟩
      (List.replicate 4 ⟨0x90, 0x00, []⟩) =
      (SC_SUCCESS,
       [Apdu.mk 0x80 0xf4 0 0x00 ([0xc1, 0x0c] ++ (List.replicate 12 7).take 12)]
         ++ spec_wkey_chunks_from 0x85 0 0 (List.range 250)) ∧
    (spec_wkey_chunks_from 0x85 0 0 (List.range 250)).length = 3 := by
  have h := C6_write_key_chunks iso_stub
    ⟨0, 0x85, List.replicate 12 7, some (List.range 250)⟩
    (List.range 250) (List.replicate 4 ⟨0x90, 0x00, []⟩) rfl (by decide)
    (by intro r hr
        rw [List.eq_of_mem_replicate hr]
        exact ⟨rfl, rfl⟩)
    (by decide)
  exact ⟨h.1, h.2.trans (by decide)⟩

/-- Witness for C8: a one-byte (odd) path is rejected with no
selection. -/
theorem C8_witness :
    (starcos_select_file_path ⟨false, 0, []⟩ [0x3f] []).1 =
      SC_ERROR_INVALID_ARGUMENTS ∧
    (starcos_select_file_path ⟨false, 0, []⟩ [0x3f] []).2.2 = [] :=
  (C8_select_path_rejects ⟨false, 0, []⟩ [0x3f] []).mpr (Or.inl (by decide))

/-- Helper: the `bMatch` loop computes the positionwise pair-agreement
count of the cache against the path (given enough fuel, an in-range
even start index, and a cache no longer than the path). -/
theorem bMatch_go_eq_agree (c p : List Nat) (hc2 : c.length % 2 = 0)
    (hcp : c.length ≤ p.length) :
    ∀ (fuel i : Nat), c.length ≤ i + 2 * fuel → i % 2 = 0 →
      starcos_bMatch_go c p i fuel = spec_pair_agree (c.drop i) (p.drop i) := by
  intro fuel
  induction fuel with
  | zero =>
    intro i hfi _
    have hci : c.length ≤ i := by omega
    rw [List.drop_eq_nil_of_le hci]
    rfl
  | succ n ih =>
    intro i hfi hieven
    by_cases hi : i < c.length
    · have hi1 : i + 1 < c.length := by omega
      have hip : i < p.length := by omega
      have hip1 : i + 1 < p.length := by omega
      rw [List.drop_eq_getElem_cons hi, List.drop_eq_getElem_cons hi1,
        List.drop_eq_getElem_cons hip, List.drop_eq_getElem_cons hip1]
      simp only [spec_pair_agree]
      simp only [starcos_bMatch_go]
      rw [if_pos hi]
      rw [List.getD_eq_getElem c 0 hi, List.getD_eq_getElem c 0 hi1,
        List.getD_eq_getElem p 0 hip, List.getD_eq_getElem p 0 hip1]
      have hdd : i + 1 + 1 = i + 2 := by omega
      rw [hdd]
      rw [ih (i + 2) (by omega) (by omega)]
    · simp only [starcos_bMatch_go]
      rw [if_neg hi, List.drop_eq_nil_of_le (Nat.le_of_not_lt hi)]
      rfl

/-- Helper: when the cache guard holds, `bMatch` is the positionwise
pair-agreement count. -/
theorem bMatch_eq_pair_agree (cache : PathCache) (path : List Nat)
    (hv : cache.valid = true) (ht : cache.ptype = SC_PATH_TYPE_PATH)
    (heven : cache.value.length % 2 = 0) (h2 : 2 ≤ cache.value.length)
    (hle : cache.value.length ≤ path.length) :
    starcos_bMatch cache path = (spec_pair_agree cache.value path : Int) := by
  unfold starcos_bMatch
  rw [if_pos ⟨hv, ht, h2, hle⟩]
  unfold starcos_bMatch_loop
  rw [bMatch_go_eq_agree cache.value path heven hle (cache.value.length + 1) 0
    (by omega) (by omega)]
  simp

/-- Helper: a normalized path always starts with `3F 00`. -/
theorem norm_path_starts_mf (p : List Nat) :
    (starcos_norm_path p).getD 0 0 = 0x3f ∧
    (starcos_norm_path p).getD 1 0 = 0x00 := by
  unfold starcos_norm_path
  split
  · assumption
  · exact ⟨rfl, rfl⟩

/-- Helper: for the caches this driver itself writes (one or two FIDs,
starting `3F 00`) the positionwise agreement against a path that also
starts `3F 00` coincides with the leading agreement. -/
theorem pair_agree_eq_leading_of_short (c p : List Nat)
    (hshape : c = [0x3f, 0x00] ∨ ∃ a b, c = [0x3f, 0x00, a, b])
    (hp0 : p.getD 0 0 = 0x3f) (hp1 : p.getD 1 0 = 0x00)
    (hlen : c.length ≤ p.length) :
    spec_pair_agree c p = spec_leading_agree c p := by
  rcases hshape with rfl | ⟨a, b, rfl⟩
  · cases p with
    | nil => simp at hlen
    | cons x p1 =>
      cases p1 with
      | nil => simp at hlen
      | cons y ps =>
        have hx : x = 0x3f := by simpa using hp0
        have hy : y = 0x00 := by simpa using hp1
        subst hx
        subst hy
        simp [spec_pair_agree, spec_leading_agree]
  · cases p with
    | nil => simp at hlen
    | cons x p1 =>
      cases p1 with
      | nil => simp at hlen
      | cons y p2 =>
        cases p2 with
        | nil => simp at hlen
        | cons z p3 =>
          cases p3 with
          | nil => simp at hlen
          | cons w ps =>
            have hx : x = 0x3f := by simpa using hp0
            have hy : y = 0x00 := by simpa using hp1
            subst hx
            subst hy
            by_cases hzw : a = z ∧ b = w <;>
              simp [spec_pair_agree, spec_leading_agree, hzw]

/-- C3 (counterexample): with the reachable cache `3F 00 AA AA` (valid,
type PATH) and target path `3F 00`, the leading agreement covers the
whole normalized path — the claim demands zero descent APDUs and no
restart from the root — but the code skips the cache (its guard requires
the cache to be no longer than the path) and emits one root
selection. -/
theorem C3_counterexample :
    spec_leading_agree [0x3f, 0x00, 0xAA, 0xAA]
      (starcos_norm_path [0x3f, 0x00]) = 2 ∧
    (starcos_norm_path [0x3f, 0x00]).length = 2 ∧
    starcos_select_file_path ⟨true, SC_PATH_TYPE_PATH, [0x3f, 0x00, 0xAA, 0xAA]⟩
      [0x3f, 0x00] [⟨SC_SUCCESS, true⟩] =
      (SC_SUCCESS, ⟨true, SC_PATH_TYPE_PATH, [0x3f, 0x00]⟩, [(0x3f, 0x00)]) ∧
    ([(0x3f, 0x00)] : List (Nat × Nat)) ≠ [] := by decide

/-- C3 (amended): when the cache guard holds (valid PATH cache, even
length between 2 and the normalized path length), `bMatch` is twice the
number of FID positions at which cache and path agree — positionwise,
not only leading; for the caches the driver itself writes (at most two
FIDs starting `3F 00`) this coincides with the leading agreement — the
emitted selection sequence descends from offset `bMatch` (empty on full
agreement, and starting with the FID at offset `bMatch` otherwise);
when the cached path is longer than the target, `bMatch` stays `-1` and
selection restarts from the root. -/
theorem C3_bMatch_pairwise_descent (cache : PathCache) (pathIn : List Nat)
    (ocs : List FidOutcome)
    (hv : cache.valid = true) (ht : cache.ptype = SC_PATH_TYPE_PATH)
    (heven : cache.value.length % 2 = 0) (h2 : 2 ≤ cache.value.length) :
    (cache.value.length ≤ (starcos_norm_path pathIn).length →
      starcos_bMatch cache (starcos_norm_path pathIn) =
        (spec_pair_agree cache.value (starcos_norm_path pathIn) : Int)) ∧
    ((cache.value = [0x3f, 0x00] ∨ ∃ a b, cache.value = [0x3f, 0x00, a, b]) →
      cache.value.length ≤ (starcos_norm_path pathIn).length →
      spec_pair_agree cache.value (starcos_norm_path pathIn) =
        spec_leading_agree cache.value (starcos_norm_path pathIn)) ∧
    ((starcos_norm_path pathIn).length < cache.value.length →
      starcos_bMatch cache (starcos_norm_path pathIn) = -1) ∧
    (¬(pathIn.length % 2 ≠ 0 ∨ pathIn.length > 6 ∨ pathIn.length = 0) →
      ¬(pathIn.length = 6 ∧
        ¬(pathIn.getD 0 0 = 0x3f ∧ pathIn.getD 1 0 = 0x00)) →
      starcos_bMatch cache (starcos_norm_path pathIn) =
        ((starcos_norm_path pathIn).length : Int) →
      starcos_select_file_path cache pathIn ocs = (SC_SUCCESS, cache, [])) ∧
    (¬(pathIn.length % 2 ≠ 0 ∨ pathIn.length > 6 ∨ pathIn.length = 0) →
      ¬(pathIn.length = 6 ∧
        ¬(pathIn.getD 0 0 = 0x3f ∧ pathIn.getD 1 0 = 0x00)) →
      ∀ b : Nat, starcos_bMatch cache (starcos_norm_path pathIn) = (b : Int) →
      b + 2 ≤ (starcos_norm_path pathIn).length →
      ((starcos_select_file_path cache pathIn ocs).2.2).head? =
        some ((starcos_norm_path pathIn).getD b 0,
              (starcos_norm_path pathIn).getD (b + 1) 0)) := by
  refine ⟨?_, ?_, ?_, ?_, ?_⟩
  · intro hle
    exact bMatch_eq_pair_agree cache (starcos_norm_path pathIn) hv ht heven h2 hle
  · intro hshape hle
    exact pair_agree_eq_leading_of_short cache.value (starcos_norm_path pathIn)
      hshape (norm_path_starts_mf pathIn).1 (norm_path_starts_mf pathIn).2 hle
  · intro hgt
    unfold starcos_bMatch
    rw [if_neg (fun hc => absurd hc.2.2.2 (by omega))]
  · intro hval1 hval2 hfull
    simp only [starcos_select_file_path, starcos_select_path_go]
    rw [if_neg hval1, if_neg hval2,
      if_pos ⟨hv, by rw [hfull]; exact Int.natCast_nonneg _⟩]
    rw [hfull]
    simp only [Int.toNat_natCast]
    rw [if_neg (by omega), if_neg (by omega)]
  · intro hval1 hval2 b hb hble
    simp only [starcos_select_file_path, starcos_select_path_go]
    rw [if_neg hval1, if_neg hval2,
      if_pos ⟨hv, by rw [hb]; exact Int.natCast_nonneg _⟩]
    rw [hb]
    simp only [Int.toNat_natCast]
    by_cases hd2 : (starcos_norm_path pathIn).length - b = 2
    · rw [if_pos hd2]
      cases ocs with
      | nil => simp
      | cons oc rest => simp
    · rw [if_neg hd2, if_pos (by omega)]
      cases ocs with
      | nil => simp
      | cons oc rest =>
        simp only []
        split <;> simp

/-- Witness for C3 at a concrete cached descent: cache `3F 00`, target
`3F 00 AA AA` — `bMatch` is 2 and the single emitted selection is the
final FID `AA AA`. -/
theorem C3_witness :
    starcos_bMatch ⟨true, SC_PATH_TYPE_PATH, [0x3f, 0x00]⟩
      (starcos_norm_path [0x3f, 0x00, 0xAA, 0xAA]) = 2 ∧
    ((starcos_select_file_path ⟨true, SC_PATH_TYPE_PATH, [0x3f, 0x00]⟩
        [0x3f, 0x00, 0xAA, 0xAA] [⟨SC_SUCCESS, true⟩]).2.2).head? =
      some (0xAA, 0xAA) := by
  have h := C3_bMatch_pairwise_descent ⟨true, SC_PATH_TYPE_PATH, [0x3f, 0x00]⟩
    [0x3f, 0x00, 0xAA, 0xAA] [⟨SC_SUCCESS, true⟩] rfl rfl (by decide) (by decide)
  have ha : starcos_bMatch ⟨true, SC_PATH_TYPE_PATH, [0x3f, 0x00]⟩
      (starcos_norm_path [0x3f, 0x00, 0xAA, 0xAA]) = 2 :=
    (h.1 (by decide)).trans (by decide)
  refine ⟨ha, ?_⟩
  have he := h.2.2.2.2 (by decide) (by decide) 2 (by exact_mod_cast ha) (by decide)
  exact he.trans (by decide)

end Starcos
